import Mathlib

/-!
Verification development for the FIN-news ingestion-and-annotation core.

The Lean definitions below are a shallow embedding of the Python source:
`src/utils.py` (identity computation), `src/db.py` (schema-level relational
model and the upsert / retention / archive operations), `src/rules_config.py`
and `src/rules.py` (the rule engine, including a small interpreter for the
regular-expression dialect actually used by the rule tables) and
`src/ingest.py` (fetch gateway and ingestion orchestrator).

External libraries consumed by the source (hashlib, datetime, the SQLite
engine, the feed parser and HTTP transport) are modelled at the interface
granularity the code relies on: SQL statements become explicit list
transformations, `hashlib.sha256` is implemented bit-for-bit, and `datetime`
is modelled by a naive/aware-tagged timestamp type that reproduces the
library's iso-format round trip and its refusal to subtract naive and aware
values.
-/

set_option maxRecDepth 20000

namespace FINNews

/-! ## SHA-256 (model of `hashlib.sha256(...).hexdigest()`)

Words are `Nat` reduced mod `2^32`; messages are lists of byte values. -/

def add32 (a b : Nat) : Nat := (a + b) % 4294967296

def rotr32 (n x : Nat) : Nat :=
  Nat.lor (x >>> n) ((x <<< (32 - n)) % 4294967296)

def bigSigma0 (x : Nat) : Nat := rotr32 2 x ^^^ rotr32 13 x ^^^ rotr32 22 x

def bigSigma1 (x : Nat) : Nat := rotr32 6 x ^^^ rotr32 11 x ^^^ rotr32 25 x

def smallSigma0 (x : Nat) : Nat := rotr32 7 x ^^^ rotr32 18 x ^^^ (x >>> 3)

def smallSigma1 (x : Nat) : Nat := rotr32 17 x ^^^ rotr32 19 x ^^^ (x >>> 10)

def chFun (x y z : Nat) : Nat := (x &&& y) ^^^ ((x ^^^ 4294967295) &&& z)

def majFun (x y z : Nat) : Nat := (x &&& y) ^^^ (x &&& z) ^^^ (y &&& z)

/-- The 64 SHA-256 round constants (decimal rendering of the standard
table). -/
def sha256K : List Nat :=
  [1116352408, 1899447441, 3049323471, 3921009573, 961987163, 1508970993,
   2453635748, 2870763221, 3624381080, 310598401, 607225278, 1426881987,
   1925078388, 2162078206, 2614888103, 3248222580, 3835390401, 4022224774,
   264347078, 604807628, 770255983, 1249150122, 1555081692, 1996064986,
   2554220882, 2821834349, 2952996808, 3210313671, 3336571891, 3584528711,
   113926993, 338241895, 666307205, 773529912, 1294757372, 1396182291,
   1695183700, 1986661051, 2177026350, 2456956037, 2730485921, 2820302411,
   3259730800, 3345764771, 3516065817, 3600352804, 4094571909, 275423344,
   430227734, 506948616, 659060556, 883997877, 958139571, 1322822218,
   1537002063, 1747873779, 1955562222, 2024104815, 2227730452, 2361852424,
   2428436474, 2756734187, 3204031479, 3329325298]

/-- The SHA-256 initial hash state (decimal rendering). -/
def sha256H0 : List Nat :=
  [1779033703, 3144134277, 1013904242, 2773480762,
   1359893119, 2600822924, 528734635, 1541459225]

def toBytesBE (n x : Nat) : List Nat :=
  (List.range n).map (fun i => (x >>> (8 * (n - 1 - i))) % 256)

def word32At (chunk : List Nat) (i : Nat) : Nat :=
  (chunk.getD (4 * i) 0) <<< 24 + (chunk.getD (4 * i + 1) 0) <<< 16 +
    (chunk.getD (4 * i + 2) 0) <<< 8 + chunk.getD (4 * i + 3) 0

def sha256schedule (chunk : List Nat) : Array Nat :=
  let w0 : Array Nat := (Array.range 16).map (fun i => word32At chunk i)
  (List.range 48).foldl
    (fun w j =>
      let i := j + 16
      w.push (add32 (add32 (w.getD (i - 16) 0) (smallSigma0 (w.getD (i - 15) 0)))
                    (add32 (w.getD (i - 7) 0) (smallSigma1 (w.getD (i - 2) 0)))))
    w0

def sha256compress (hs : List Nat) (chunk : List Nat) : List Nat :=
  let w := sha256schedule chunk
  let final := (List.range 64).foldl
    (fun st i =>
      match st with
      | [a, b, c, d, e, f, g, h] =>
        let t1 := add32 h (add32 (bigSigma1 e)
                    (add32 (chFun e f g) (add32 (sha256K.getD i 0) (w.getD i 0))))
        let t2 := add32 (bigSigma0 a) (majFun a b c)
        [add32 t1 t2, a, b, c, add32 d t1, e, f, g]
      | other => other)
    hs
  (List.range 8).map (fun i => add32 (hs.getD i 0) (final.getD i 0))

def sha256pad (m : List Nat) : List Nat :=
  let L := m.length
  let k := (119 - L % 64) % 64
  m ++ 128 :: List.replicate k 0 ++ toBytesBE 8 (8 * L)

def sha256bytes (m : List Nat) : List Nat :=
  let p := sha256pad m
  let hs := (List.range (p.length / 64)).foldl
    (fun hs i => sha256compress hs ((p.drop (64 * i)).take 64)) sha256H0
  (hs.map (toBytesBE 4)).flatten

def hexDigitChar (n : Nat) : Char :=
  if n < 10 then Char.ofNat (48 + n) else Char.ofNat (87 + n)

def bytesToHex (bs : List Nat) : String :=
  ⟨(bs.map (fun b => [hexDigitChar (b / 16), hexDigitChar (b % 16)])).flatten⟩

def strBytes (s : String) : List Nat := s.toUTF8.data.toList.map (fun b => b.toNat)

def sha256hex (s : String) : String := bytesToHex (sha256bytes (strBytes s))

/-! ## `src/utils.py`: whitespace normalization and stable identity

`re.sub(r"\s+", " ", s).strip()` becomes: map every whitespace character to a
space, squeeze runs of spaces to one, strip ends.  Python's `\s` is modelled
on its ASCII members; `str.lower()` on its ASCII action (all publisher
suffixes stripped by `normalize_title_for_hash` are ASCII). -/

def isPyWS (c : Char) : Bool :=
  c = ' ' || c = '\t' || c = '\n' || c = '\r' || c = '\x0b' || c = '\x0c'

def squeezeSpaces : List Char → List Char
  | [] => []
  | [c] => [c]
  | a :: b :: rest =>
    if a = ' ' && b = ' ' then squeezeSpaces (b :: rest)
    else a :: squeezeSpaces (b :: rest)

def stripEnds (l : List Char) : List Char :=
  ((l.dropWhile isPyWS).reverse.dropWhile isPyWS).reverse

/-- `utils.normalize_ws`: collapse every whitespace run to a single space and
strip leading/trailing whitespace. -/
def normalize_ws (s : String) : String :=
  ⟨stripEnds (squeezeSpaces (s.data.map (fun c => if isPyWS c then ' ' else c)))⟩

def pyLower (s : String) : String := ⟨s.data.map Char.toLower⟩

/-- Consume an exact character sequence from the front, or fail. -/
def dropExact : List Char → List Char → Option (List Char)
  | [], l => some l
  | _ :: _, [] => none
  | p :: ps, c :: cs => if p = c then dropExact ps cs else none

/-- `re.sub(r"\s+-\s+<name>$", "", t)`: if `t` ends in one-or-more whitespace,
a hyphen, one-or-more whitespace and then `name`, remove that suffix.
Implemented on the reversed character list. -/
def rmPubSuffix (name : String) (t : String) : String :=
  match dropExact name.data.reverse t.data.reverse with
  | none => t
  | some r1 =>
    let w1 := r1.takeWhile isPyWS
    let r2 := r1.dropWhile isPyWS
    if w1.isEmpty then t
    else
      match r2 with
      | '-' :: r3 =>
        let w2 := r3.takeWhile isPyWS
        let r4 := r3.dropWhile isPyWS
        if w2.isEmpty then t else ⟨r4.reverse⟩
      | _ => t

/-- `utils.normalize_title_for_hash` (the `source_id` argument is accepted and
unused, exactly as in the source). -/
def normalize_title_for_hash (title : String) (source_id : String) : String :=
  let t := pyLower title
  let t := normalize_ws t
  let t := rmPubSuffix "reuters" t
  let t := rmPubSuffix "bloomberg" t
  let t := rmPubSuffix "financial times" t
  let t := rmPubSuffix "the economist" t
  let t := rmPubSuffix "wsj" t
  let _ := source_id
  t

/-- The pre-image handed to the hash by `utils.stable_item_id`:
`guid or f"{source_id}|{normalize_title_for_hash(title, source_id)}|{url}"`.
Python's `or` treats an empty-string guid like a missing one. -/
def stable_base (source_id title url : String) (guid : Option String) : String :=
  match guid with
  | some g =>
    if g = "" then source_id ++ "|" ++ normalize_title_for_hash title source_id ++ "|" ++ url
    else g
  | none => source_id ++ "|" ++ normalize_title_for_hash title source_id ++ "|" ++ url

/-- `utils.stable_item_id`: SHA-256 hex digest of the base string. -/
def stable_item_id (source_id title url : String) (guid : Option String) : String :=
  sha256hex (stable_base source_id title url guid)

/-! ## `src/db.py`: relational model

Each table of `SCHEMA_SQL` is a list of row structures.  `INSERT OR REPLACE`
removes the row with the conflicting primary key and adds the new row (row
order inside a table is not observable through any query modelled here);
`INSERT OR IGNORE` adds the row only when the primary key is absent.  The
schema never enables SQLite foreign-key enforcement, so replacing an `items`
row leaves `item_tags` and `signals` rows untouched, as in the source. -/

structure SourceRow where
  source_id : String
  publisher : String
  feed_name : String
  category : String
  rss_url : String
  cadence_hint : Option String
  enabled : Bool
deriving DecidableEq, Repr

structure ItemRow where
  item_id : String
  source_id : String
  published_at : Option String
  fetched_at : String
  title : String
  url : String
  guid : Option String
  summary : Option String
  raw_json : Option String
deriving DecidableEq, Repr

structure TagRow where
  tag : String
  tag_type : String
  description : Option String
deriving DecidableEq, Repr

structure ItemTagRow where
  item_id : String
  tag : String
  confidence : Rat
  tagger : String
deriving DecidableEq, Repr

structure SignalRow where
  item_id : String
  direction : String
  urgency : String
  mode : String
  notes : Option String
  scorer : String
deriving DecidableEq, Repr

structure SourceStatusRow where
  source_id : String
  last_fetch_utc : Option String
  last_ok_utc : Option String
  last_error : Option String
  last_http_status : Option Nat
  items_seen_last_fetch : Nat
  items_added_last_fetch : Nat
deriving DecidableEq, Repr

structure MaintRow where
  key : String
  value : String
  updated_at : String
deriving DecidableEq, Repr

structure DB where
  sources : List SourceRow
  items : List ItemRow
  tags : List TagRow
  item_tags : List ItemTagRow
  signals : List SignalRow
  source_status : List SourceStatusRow
  maintenance : List MaintRow
deriving DecidableEq, Repr

/-- The dictionary handed to `upsert_item_and_annotations` by `fetch_once`. -/
structure ItemInput where
  item_id : String
  source_id : String
  published_at : Option String
  fetched_at : String
  title : String
  url : String
  guid : Option String
  summary : Option String
  raw_json : Option String
  topics : List String
  asset_classes : List String
  geo_tags : List String
  direction : String
  urgency : String
  mode : String
  notes : Option String
deriving DecidableEq, Repr

def itemRowOf (it : ItemInput) : ItemRow :=
  ⟨it.item_id, it.source_id, it.published_at, it.fetched_at, it.title, it.url,
   it.guid, it.summary, it.raw_json⟩

def insert_or_replace_item (items : List ItemRow) (r : ItemRow) : List ItemRow :=
  r :: items.filter (fun x => !(x.item_id == r.item_id))

def insert_or_replace_signal (signals : List SignalRow) (r : SignalRow) : List SignalRow :=
  r :: signals.filter (fun x => !(x.item_id == r.item_id))

def insert_ignore_tag (tags : List TagRow) (r : TagRow) : List TagRow :=
  if tags.any (fun x => x.tag == r.tag) then tags else r :: tags

def insert_ignore_item_tag (rows : List ItemTagRow) (r : ItemTagRow) : List ItemTagRow :=
  if rows.any (fun x => x.item_id == r.item_id && x.tag == r.tag) then rows else r :: rows

/-- One iteration of the per-tag loop body in `upsert_item_and_annotations`:
ensure the vocabulary row exists, then insert the join row if absent. -/
def addTagAnn (item_id ty : String) (st : List TagRow × List ItemTagRow)
    (tag : String) : List TagRow × List ItemTagRow :=
  (insert_ignore_tag st.1 ⟨tag, ty, some ("Manual " ++ ty ++ " tag: " ++ tag)⟩,
   insert_ignore_item_tag st.2 ⟨item_id, tag, 1, "rules_v1"⟩)

/-- `db.upsert_item_and_annotations`. -/
def upsert_item_and_annotations (db : DB) (it : ItemInput) : DB :=
  let items := insert_or_replace_item db.items (itemRowOf it)
  let signals := insert_or_replace_signal db.signals
    ⟨it.item_id, it.direction, it.urgency, it.mode, it.notes, "rules_v0"⟩
  let st1 := it.topics.foldl (addTagAnn it.item_id "topic") (db.tags, db.item_tags)
  let st2 := it.asset_classes.foldl (addTagAnn it.item_id "asset_class") st1
  let st3 := it.geo_tags.foldl (addTagAnn it.item_id "geo") st2
  { db with items := items, signals := signals, tags := st3.1, item_tags := st3.2 }

def get_maintenance_state (db : DB) (key : String) : Option String :=
  (db.maintenance.find? (fun r => r.key == key)).map (fun r => r.value)

/-- `db.set_maintenance_state` (the row's `updated_at` is the same
`datetime.now(timezone.utc).isoformat()` reading, passed in as `nowIso`). -/
def set_maintenance_state (db : DB) (key value nowIso : String) : DB :=
  { db with maintenance := ⟨key, value, nowIso⟩ :: db.maintenance.filter (fun r => !(r.key == key)) }

structure CleanupStats where
  items_deleted : Nat
  tags_deleted : Nat
  signals_deleted : Nat
deriving DecidableEq, Repr

/-- SQLite's ordering on TEXT values: byte-wise (`memcmp`) comparison, which
on the ASCII iso-format timestamps involved coincides with code-point-wise
lexicographic comparison. -/
def charListLt : List Char → List Char → Bool
  | [], [] => false
  | [], _ :: _ => true
  | _ :: _, [] => false
  | a :: as, b :: bs =>
    if a.toNat < b.toNat then true
    else if b.toNat < a.toNat then false
    else charListLt as bs

def strLtB (a b : String) : Bool := charListLt a.data b.data

/-- The retention predicate of `run_cleanup` / `archive_old_items`:
`(published_at IS NOT NULL AND published_at < cutoff) OR
 (published_at IS NULL AND fetched_at < cutoff)`. -/
def isOldItem (cutoff : String) (i : ItemRow) : Bool :=
  match i.published_at with
  | some p => strLtB p cutoff
  | none => strLtB i.fetched_at cutoff

/-- `db.run_cleanup`.  `cutoff` is the iso form of `now − retention_days`
(computed by the caller's clock) and `nowIso` the timezone-aware
`datetime.now(timezone.utc).isoformat()` recorded on success. -/
def run_cleanup (cutoff nowIso : String) (db : DB) : DB × CleanupStats :=
  let old_ids := (db.items.filter (isOldItem cutoff)).map (fun i => i.item_id)
  if old_ids.isEmpty then (db, ⟨0, 0, 0⟩)
  else
    let tags_deleted := (db.item_tags.filter (fun r => old_ids.contains r.item_id)).length
    let signals_deleted := (db.signals.filter (fun r => old_ids.contains r.item_id)).length
    let items_deleted := (db.items.filter (fun r => old_ids.contains r.item_id)).length
    let db1 := { db with
      item_tags := db.item_tags.filter (fun r => !(old_ids.contains r.item_id)),
      signals := db.signals.filter (fun r => !(old_ids.contains r.item_id)),
      items := db.items.filter (fun r => !(old_ids.contains r.item_id)) }
    let db2 := set_maintenance_state db1 "last_cleanup" nowIso nowIso
    (db2, ⟨items_deleted, tags_deleted, signals_deleted⟩)

/-! ### The `datetime` collaborator

`maybe_run_daily_cleanup` mixes `datetime.now()` (timezone-naive) with
timestamps written by `set_maintenance_state` via
`datetime.now(timezone.utc).isoformat()` (timezone-aware).  The model keeps
the one property of the library the code depends on: iso-formatting an aware
value appends a `+00:00` offset, `fromisoformat` restores the same value with
the same awareness (raising `ValueError` on junk), and subtraction of a naive
and an aware value raises `TypeError`, which the source's
`except ValueError` does not catch.  Timestamps are seconds as `Int`. -/

inductive PyDt where
  | naive (t : Int)
  | aware (t : Int)
deriving DecidableEq, Repr

def dtIso : PyDt → String
  | .naive t => toString t
  | .aware t => toString t ++ "+00:00"

def digitsToNat? : List Char → Option Nat
  | [] => none
  | l => l.foldl (fun acc c =>
      acc.bind (fun n => if c.isDigit then some (n * 10 + (c.toNat - 48)) else none))
      (some 0)

def parseIntStr (s : String) : Option Int :=
  match s.data with
  | '-' :: rest => (digitsToNat? rest).map (fun n => -(n : Int))
  | l => (digitsToNat? l).map (fun n => (n : Int))

def strEndsWith (s suffix : String) : Bool :=
  (dropExact suffix.data.reverse s.data.reverse).isSome

def strDropRight (s : String) (n : Nat) : String :=
  ⟨s.data.take (s.data.length - n)⟩

def dtFromIso (s : String) : Except String PyDt :=
  if strEndsWith s "+00:00" then
    match parseIntStr (strDropRight s 6) with
    | some t => .ok (.aware t)
    | none => .error "ValueError"
  else
    match parseIntStr s with
    | some t => .ok (.naive t)
    | none => .error "ValueError"

def dtSub : PyDt → PyDt → Except String Int
  | .naive a, .naive b => .ok (a - b)
  | .aware a, .aware b => .ok (a - b)
  | _, _ => .error "TypeError: can't subtract offset-naive and offset-aware datetimes"

/-- `db.maybe_run_daily_cleanup`.  `nowNaive` is the `datetime.now()` reading,
`nowAware` the `datetime.now(timezone.utc)` reading; a `TypeError` from the
subtraction propagates (only `ValueError` is caught). -/
def maybe_run_daily_cleanup (nowNaive nowAware : Int) (cutoff : String) (db : DB) :
    Except String (DB × CleanupStats) :=
  match get_maintenance_state db "last_cleanup" with
  | some s =>
    match dtFromIso s with
    | .error _ => .ok (run_cleanup cutoff (dtIso (.aware nowAware)) db)
    | .ok last =>
      match dtSub (.naive nowNaive) last with
      | .error e => .error e
      | .ok diff =>
        if diff < 24 * 3600 then .ok (db, ⟨0, 0, 0⟩)
        else .ok (run_cleanup cutoff (dtIso (.aware nowAware)) db)
  | none => .ok (run_cleanup cutoff (dtIso (.aware nowAware)) db)

/-! ### `db.archive_old_items` -/

structure ArchiveRecord where
  item : ItemRow
  publisher : String
  feed_name : String
  category : String
  direction : Option String
  urgency : Option String
  mode : Option String
  topics : List String
  asset_classes : List String
  geo_tags : List String
deriving DecidableEq, Repr

structure ArchiveFile where
  archived_at : String
  archive_days : Nat
  total_items : Nat
  items : List ArchiveRecord
deriving DecidableEq, Repr

instance {ε α : Type} [DecidableEq ε] [DecidableEq α] : DecidableEq (Except ε α) := fun x y =>
  match x, y with
  | .ok a, .ok b =>
    if h : a = b then isTrue (by rw [h]) else isFalse (fun hh => by cases hh; exact h rfl)
  | .error a, .error b =>
    if h : a = b then isTrue (by rw [h]) else isFalse (fun hh => by cases hh; exact h rfl)
  | .ok _, .error _ => isFalse (fun hh => by cases hh)
  | .error _, .ok _ => isFalse (fun hh => by cases hh)

/-- `GROUP_CONCAT(DISTINCT ...)` over the join of `item_tags` with the typed
vocabulary. -/
def tagsOfType (db : DB) (item_id ty : String) : List String :=
  ((db.item_tags.filter (fun r =>
      r.item_id == item_id && db.tags.any (fun t => t.tag == r.tag && t.tag_type == ty))).map
    (fun r => r.tag)).dedup

def archiveRecordOf (db : DB) (i : ItemRow) : ArchiveRecord :=
  let src := db.sources.find? (fun s => s.source_id == i.source_id)
  let sig := db.signals.find? (fun s => s.item_id == i.item_id)
  { item := i
    publisher := (src.map (fun s => s.publisher)).getD ""
    feed_name := (src.map (fun s => s.feed_name)).getD ""
    category := (src.map (fun s => s.category)).getD ""
    direction := sig.map (fun s => s.direction)
    urgency := sig.map (fun s => s.urgency)
    mode := sig.map (fun s => s.mode)
    topics := tagsOfType db i.item_id "topic"
    asset_classes := tagsOfType db i.item_id "asset_class"
    geo_tags := tagsOfType db i.item_id "geo" }

/-- `db.archive_old_items`: the selection is the retention predicate joined
with `sources` (an inner `JOIN`); an empty selection raises `ValueError`
before any artifact is created.  The function issues no data-modifying SQL,
which the model records by returning the store unchanged alongside the
outcome. -/
def archive_old_items (archive_days : Nat) (cutoff nowIso : String) (db : DB) :
    Except String ArchiveFile × DB :=
  let sel := db.items.filter (fun i =>
    isOldItem cutoff i && db.sources.any (fun s => s.source_id == i.source_id))
  if sel.isEmpty then
    (.error ("No items found older than " ++ toString archive_days ++ " days to archive"), db)
  else
    let recs := sel.map (archiveRecordOf db)
    (.ok ⟨nowIso, archive_days, recs.length, recs⟩, db)

/-! ## A matcher for the regex dialect of the rule tables

`rules.regex_any` calls `re.search(p, text, flags=re.IGNORECASE)`.  The
patterns appearing in the rule tables use only: literal characters, `\b` word
boundaries, a trailing `?` on a character or group, groups of literal
alternatives `(a|b|c)`, and `.*`.  `compilePat` compiles exactly that dialect
and the matcher implements Python semantics for it: case-insensitive ASCII
comparison, `\w = [a-zA-Z0-9_]` for boundaries, `.` matching anything but a
newline, and `search` succeeding at any start position. -/

inductive RE where
  | ch (c : Char)
  | anyc
  | grp (alts : List String)
  | opt (r : RE)
  | dotStar
  | wb
deriving DecidableEq, Repr

/-- Single-pass compiler for the dialect.  The first argument is `none`
outside a `( | )`-group and `some (alternativesSoFar, currentAlternative)`
inside one (the current alternative is accumulated in reverse). -/
def compileAux : Option (List String × List Char) → List Char → List RE
  | none, [] => []
  | none, '\\' :: 'b' :: rest => RE.wb :: compileAux none rest
  | none, '\\' :: c :: rest => RE.ch c :: compileAux none rest
  | none, '(' :: rest => compileAux (some ([], [])) rest
  | none, '.' :: '*' :: rest => RE.dotStar :: compileAux none rest
  | none, '.' :: rest => RE.anyc :: compileAux none rest
  | none, c :: '?' :: rest => RE.opt (RE.ch c) :: compileAux none rest
  | none, c :: rest => RE.ch c :: compileAux none rest
  | some (alts, cur), [] => [RE.grp (alts ++ [⟨cur.reverse⟩])]
  | some (alts, cur), ')' :: '?' :: rest =>
    RE.opt (RE.grp (alts ++ [⟨cur.reverse⟩])) :: compileAux none rest
  | some (alts, cur), ')' :: rest =>
    RE.grp (alts ++ [⟨cur.reverse⟩]) :: compileAux none rest
  | some (alts, cur), '|' :: rest => compileAux (some (alts ++ [⟨cur.reverse⟩], [])) rest
  | some (alts, cur), c :: rest => compileAux (some (alts, c :: cur)) rest

def compilePat (l : List Char) : List RE := compileAux none l

def isWordChar (c : Char) : Bool := c.isAlphanum || c = '_'

def wordness : Option Char → Bool
  | some c => isWordChar c
  | none => false

def boundary (prev next : Option Char) : Bool := wordness prev != wordness next

def ciEq (a b : Char) : Bool := a.toLower == b.toLower

/-- Consume a literal alternative case-insensitively. -/
def litConsume : List Char → Option Char → List Char → Option (Option Char × List Char)
  | [], prev, s => some (prev, s)
  | _ :: _, _, [] => none
  | p :: ps, _, c :: cs => if ciEq p c then litConsume ps (some c) cs else none

/-- All states reachable by `.*` (any run of non-newline characters). -/
def dotStarStates : Option Char → List Char → List (Option Char × List Char)
  | prev, [] => [(prev, [])]
  | prev, c :: cs => (prev, c :: cs) :: (if c = '\n' then [] else dotStarStates (some c) cs)

def mtchAtom : RE → Option Char → List Char → List (Option Char × List Char)
  | .wb, prev, s => if boundary prev s.head? then [(prev, s)] else []
  | .ch _, _, [] => []
  | .ch c, _, x :: xs => if ciEq c x then [(some x, xs)] else []
  | .anyc, _, [] => []
  | .anyc, _, x :: xs => if x = '\n' then [] else [(some x, xs)]
  | .grp alts, prev, s => alts.filterMap (fun a => litConsume a.data prev s)
  | .opt r, prev, s => mtchAtom r prev s ++ [(prev, s)]
  | .dotStar, prev, s => dotStarStates prev s

def mtchSeq : List RE → Option Char → List Char → List (Option Char × List Char)
  | [], prev, s => [(prev, s)]
  | r :: rs, prev, s => (mtchAtom r prev s).flatMap (fun st => mtchSeq rs st.1 st.2)

def searchAt (rs : List RE) : Option Char → List Char → Bool
  | prev, [] => !(mtchSeq rs prev []).isEmpty
  | prev, x :: xs => !(mtchSeq rs prev (x :: xs)).isEmpty || searchAt rs (some x) xs

/-- `re.search(pattern, text, flags=re.IGNORECASE)` is not None. -/
def reSearch (pattern text : String) : Bool :=
  searchAt (compilePat pattern.data) none text.data

/-- `rules.regex_any`. -/
def regex_any (ps : List String) (t : String) : Bool := ps.any (fun p => reSearch p t)

/-! ## `src/rules_config.py`: default tables and config validation

Python dicts preserve insertion order, so each table is an association list
in source order.  The raw pattern strings are transcribed verbatim (with
Lean's doubled backslashes). -/

def DEFAULT_TOPIC_RULES : List (String × List String) :=
  [("rates", ["\\brate(s)?\\b", "\\byield(s)?\\b", "\\btreasur(y|ies)\\b", "\\b10-?year\\b", "\\b2-?year\\b"]),
   ("inflation", ["\\binflation\\b", "\\bCPI\\b", "\\bPCE\\b", "\\bprice(s)?\\b"]),
   ("fed", ["\\bFed\\b", "\\bFOMC\\b", "\\bPowell\\b", "\\bcentral bank\\b"]),
   ("jobs", ["\\bjobs\\b", "\\bemployment\\b", "\\bunemployment\\b", "\\bpayrolls\\b"]),
   ("growth", ["\\bGDP\\b", "\\bgrowth\\b", "\\brecession\\b", "\\bsoft landing\\b", "\\bhard landing\\b"]),
   ("credit", ["\\bcredit\\b", "\\bspreads?\\b", "\\bdefault(s)?\\b", "\\bdowngrade(s|d)?\\b"]),
   ("banks", ["\\bbank(s)?\\b", "\\bfinancial(s)?\\b", "\\blender(s)?\\b"]),
   ("housing", ["\\bhousing\\b", "\\bmortgage(s)?\\b", "\\bhome(s)?\\b", "\\breal estate\\b"]),
   ("energy", ["\\benergy\\b", "\\boil\\b", "\\bOPEC\\b", "\\bWTI\\b", "\\bBrent\\b", "\\bgas\\b"]),
   ("ai", ["\\bAI\\b", "\\bartificial intelligence\\b", "\\bLLM(s)?\\b"]),
   ("semis", ["\\bsemi(s)?\\b", "\\bchip(s)?\\b", "\\bNVIDIA\\b", "\\bTSMC\\b"]),
   ("big_tech", ["\\bApple\\b", "\\bMicrosoft\\b", "\\bGoogle\\b", "\\bAlphabet\\b", "\\bAmazon\\b", "\\bMeta\\b"]),
   ("china", ["\\bChina\\b", "\\bBeijing\\b", "\\byuan\\b"]),
   ("europe", ["\\bEurope(an)?\\b", "\\bEU\\b", "\\bECB\\b", "\\bUK\\b", "\\bBritain\\b"]),
   ("geopolitics", ["\\bwar\\b", "\\bsanction(s)?\\b", "\\bgeopolitic(s|al)\\b", "\\bMiddle East\\b", "\\bUkraine\\b"]),
   ("earnings", ["\\bearnings\\b", "\\brevenue\\b", "\\bguidance\\b", "\\bbeats?\\b", "\\bmiss(es|ed)?\\b"]),
   ("mna", ["\\bmerger(s)?\\b", "\\bacquisition(s)?\\b", "\\bbuyout\\b", "\\bdeal\\b", "\\bIPO\\b"]),
   ("regulation", ["\\bregulat(ion|or|ory)\\b", "\\bantitrust\\b", "\\blaw\\b", "\\bSEC\\b", "\\btax(es)?\\b", "\\bauditor(s)?\\b"]),
   ("politics", ["\\belection(s)?\\b", "\\bpolitical\\b", "\\bpolitician(s)?\\b", "\\bgovernment\\b", "\\bcongress\\b", "\\bsenate\\b", "\\bhouse\\b", "\\bparliament\\b", "\\bpolicy\\b", "\\bregime\\b"]),
   ("trump", ["\\bTrump\\b", "\\btrump\\b"]),
   ("biden", ["\\bBiden\\b", "\\bbiden\\b"]),
   ("crypto", ["\\bcrypto\\b", "\\bbitcoin\\b", "\\bBTC\\b", "\\bethereum\\b", "\\bETH\\b", "\\bblockchain\\b", "\\bNFT(s)?\\b"]),
   ("startups", ["\\bstartup(s)?\\b", "\\bVC\\b", "\\bventure capital\\b", "\\bfounder(s)?\\b", "\\bunicorn(s)?\\b"]),
   ("investors", ["\\binvestor(s)?\\b", "\\bhedge fund(s)?\\b", "\\bprivate equity\\b", "\\bPE\\b"]),
   ("markets", ["\\bmarket(s)?\\b", "\\btrading\\b", "\\bNYSE\\b", "\\bNASDAQ\\b"])]

def DEFAULT_ASSET_CLASS_RULES : List (String × List String) :=
  [("equities", ["\\bstocks?\\b", "\\bequities?\\b", "\\bshares?\\b", "\\bSPY\\b", "\\bQQQ\\b", "\\bDIA\\b", "\\bS&P\\b", "\\bNasdaq\\b", "\\bDow\\b"]),
   ("rates", ["\\bbonds?\\b", "\\bfixed income\\b", "\\btreasur(y|ies)\\b", "\\byield(s)?\\b", "\\bTLT\\b", "\\bIEF\\b", "\\bAGG\\b"]),
   ("credit", ["\\bcredit\\b", "\\bcorporate bonds?\\b", "\\bhigh yield\\b", "\\bjunk bonds?\\b", "\\bLQD\\b", "\\bHYG\\b"]),
   ("fx", ["\\bcurrency\\b", "\\bforex\\b", "\\bFX\\b", "\\bdollar\\b", "\\beuro\\b", "\\byen\\b", "\\bpound\\b", "\\bEURUSD\\b", "\\bGBPUSD\\b"]),
   ("commodities", ["\\bcommodit(y|ies)\\b", "\\bgold\\b", "\\bsilver\\b", "\\bcopper\\b", "\\boil\\b", "\\bWTI\\b", "\\bBrent\\b", "\\bGLD\\b", "\\bSLV\\b"])]

def DEFAULT_GEO_RULES : List (String × List String) :=
  [("US", ["\\bUS\\b", "\\bUnited States\\b", "\\bAmerica\\b", "\\bUS economy\\b", "\\bFederal Reserve\\b", "\\bFOMC\\b"]),
   ("Europe", ["\\bEurope\\b", "\\bEU\\b", "\\bEurozone\\b", "\\bECB\\b", "\\bEuropean Central Bank\\b", "\\bGermany\\b", "\\bFrance\\b"]),
   ("China", ["\\bChina\\b", "\\bBeijing\\b", "\\bShanghai\\b", "\\bHong Kong\\b", "\\byuan\\b", "\\bPBOC\\b"]),
   ("Global", ["\\bglobal\\b", "\\bworldwide\\b", "\\binternational\\b", "\\bG7\\b", "\\bG20\\b", "\\bIMF\\b", "\\bWorld Bank\\b"]),
   ("EM", ["\\bemerging markets?\\b", "\\bdeveloping countries\\b", "\\bBRICS\\b", "\\bBrazil\\b", "\\bRussia\\b", "\\bIndia\\b", "\\bSouth Africa\\b"])]

/-- JSON values as produced by `json.load`. -/
inductive Json where
  | str (s : String)
  | num (n : Int)
  | jbool (b : Bool)
  | null
  | arr (items : List Json)
  | obj (entries : List (String × Json))
deriving Repr, BEq

def isStrJson : Json → Bool
  | .str _ => true
  | _ => false

def jsonStr? : Json → Option String
  | .str s => some s
  | _ => none

/-- The per-entry validation of the loaders:
`isinstance(value, list) and all(isinstance(item, str) for item in value)`.
A valid entry is kept; an invalid one is dropped with a printed warning. -/
def validEntry : String × Json → Option (String × List String)
  | (k, .arr items) => if items.all isStrJson then some (k, items.filterMap jsonStr?) else none
  | _ => none

/-- The shared body of `load_topic_rules` / `load_asset_class_rules` /
`load_geo_rules` (the three functions are verbatim copies up to the default
table and file name).  `config = none` stands for a missing or unparseable
config file (`load_rules_from_file` returning `None`). -/
def load_rules_table (config : Option Json) (defaults : List (String × List String)) :
    List (String × List String) :=
  match config with
  | some (.obj entries) =>
    if entries.isEmpty then defaults
    else
      let validated := entries.filterMap validEntry
      if validated.isEmpty then defaults else validated
  | some _ => defaults
  | none => defaults

def load_topic_rules (config : Option Json) : List (String × List String) :=
  load_rules_table config DEFAULT_TOPIC_RULES

def load_asset_class_rules (config : Option Json) : List (String × List String) :=
  load_rules_table config DEFAULT_ASSET_CLASS_RULES

def load_geo_rules (config : Option Json) : List (String × List String) :=
  load_rules_table config DEFAULT_GEO_RULES

/-! ## `src/rules.py`: cue lists and classifiers

The repository ships no `config/*.json`, so the import-time table loads see
missing files and fall back to the defaults. -/

def TOPIC_RULES : List (String × List String) := load_topic_rules none

def ASSET_CLASS_RULES : List (String × List String) := load_asset_class_rules none

def GEO_RULES : List (String × List String) := load_geo_rules none

def NEG_CUES : List String :=
  ["\\bslump(s|ed)?\\b", "\\bfall(s|ing)?\\b", "\\bplunge(s|d)?\\b", "\\bsell-?off\\b",
   "\\bwarning\\b", "\\brisk(s)?\\b", "\\bcrisis\\b", "\\bdefault(s|ed)?\\b", "\\bdowngrade(s|d)?\\b",
   "\\btumble(s|d)?\\b", "\\bcrash\\b", "\\bpanic\\b"]

def POS_CUES : List String :=
  ["\\brally\\b", "\\bsurge(s|d)?\\b", "\\brise(s|rising)?\\b", "\\bbeats?\\b", "\\bupgrade(s|d)?\\b",
   "\\bstrong\\b", "\\brecord\\b", "\\boptimis(m|tic)\\b", "\\bgain(s|ed)?\\b", "\\bsoar(s|ed)?\\b"]

def URG_HIGH : List String :=
  ["\\bcrisis\\b", "\\bpanic\\b", "\\bplunge(s|d)?\\b", "\\bsoar(s|ed)?\\b", "\\bsurge(s|d)?\\b", "\\bshock\\b",
   "\\bemergency\\b", "\\bscramble(s|d)?\\b", "\\bcollapse\\b"]

def URG_MED : List String :=
  ["\\bvolatil(e|ity)\\b", "\\bpressure\\b", "\\bconcern(s)?\\b", "\\brisk(s)?\\b", "\\bslide(s|d)?\\b",
   "\\bjump(s|ed)?\\b"]

def MODE_RULES : List (String × List String) :=
  [("explain", ["\\bwhy\\b", "\\bexplainer\\b", "\\bwhat is\\b", "\\bhow\\b"]),
   ("warn", ["\\bwarning\\b", "\\brisk(s)?\\b", "\\bthreat\\b", "\\bcould\\b", "\\bmay\\b"]),
   ("opportunity", ["\\bbuy\\b", "\\bbull case\\b", "\\bundervalued\\b", "\\bopportunity\\b"]),
   ("posthoc", ["\\bas\\b.*\\bfall(s|ing)?\\b", "\\bafter\\b.*\\bdrop(s|ped)?\\b", "\\bfollowing\\b.*\\bsell-?off\\b"]),
   ("policy", ["\\bFed\\b", "\\bFOMC\\b", "\\bTreasury\\b", "\\bECB\\b", "\\bBOJ\\b", "\\bIMF\\b", "\\bBIS\\b", "\\bcentral bank\\b"])]

def classify_direction (title : String) : String :=
  let has_neg := regex_any NEG_CUES title
  let has_pos := regex_any POS_CUES title
  if has_neg && has_pos then "mixed"
  else if has_neg then "neg"
  else if has_pos then "pos"
  else "neutral"

def classify_urgency (title : String) : String :=
  if regex_any URG_HIGH title then "high"
  else if regex_any URG_MED title then "med"
  else "low"

def classify_mode (title : String) : String :=
  match MODE_RULES.find? (fun p => regex_any p.2 title) with
  | some p => p.1
  | none => "unknown"

def tag_topics (title : String) : List String :=
  (TOPIC_RULES.filter (fun p => regex_any p.2 title)).map (fun p => p.1)

def tag_asset_class (title : String) : List String :=
  (ASSET_CLASS_RULES.filter (fun p => regex_any p.2 title)).map (fun p => p.1)

def tag_geo (title : String) : List String :=
  (GEO_RULES.filter (fun p => regex_any p.2 title)).map (fun p => p.1)

/-- The result dictionary of `rules.apply_all_tagging`. -/
structure Classification where
  topics : List String
  asset_classes : List String
  geo_tags : List String
  direction : String
  urgency : String
  mode : String
deriving DecidableEq, Repr

def apply_all_tagging (title : String) : Classification :=
  ⟨tag_topics title, tag_asset_class title, tag_geo title,
   classify_direction title, classify_urgency title, classify_mode title⟩

/-! ## `src/ingest.py`: fetch gateway and orchestrator

The HTTP transport and feed parser are black-box collaborators: a response
oracle maps the attempt number to what `urllib`/`feedparser` produce —
a parsed feed (entries plus the `bozo` best-effort-parse flag), an
`HTTPError` with a status code, a network-level `URLError`, or any other
exception.  `fetch_feed_with_timeout`'s `for attempt in range(2)` loop is
unrolled into the first attempt and `fetchSecondAttempt` (the trailing
`"Failed after retry"` return of the source is unreachable: every branch of
the second attempt returns).  Alongside the `(parsed, http_status, error)`
triple the model counts the HTTP requests issued and the `time.sleep(1)`
delays taken. -/

/-- A feed entry as exposed by the parser: optional raw attributes, plus the
`utils.parse_published` resolution of its timestamp fields (an opaque
collaborator, modelled by its optional iso-format result). -/
structure Entry where
  title : Option String
  link : Option String
  id : Option String
  guid : Option String
  summary : Option String
  published : Option String
deriving DecidableEq, Repr

structure Feed where
  entries : List Entry
  bozo : Bool
deriving DecidableEq, Repr

inductive FetchResp where
  | success (f : Feed) (status : Nat)
  | httpError (code : Nat) (reason : String)
  | urlError (reason : String)
  | otherExc (name msg : String)
deriving DecidableEq, Repr

def msg4xx (code : Nat) (reason : String) : String :=
  if code = 401 then "HTTP 401: Unauthorized (requires authentication)"
  else if code = 403 then "HTTP 403: Forbidden"
  else if code = 404 then "HTTP 404: Not Found (feed may have moved)"
  else if code = 429 then "HTTP 429: Rate Limited (too many requests)"
  else "HTTP " ++ toString code ++ ": " ++ reason

def httpMsg (code : Nat) (reason : String) : String :=
  "HTTP " ++ toString code ++ ": " ++ reason

def fetchSecondAttempt (resp : Nat → FetchResp) :
    (Option Feed × Option Nat × Option String) × Nat × Nat :=
  match resp 1 with
  | .success f st => ((some f, some st, none), 2, 1)
  | .httpError c reason =>
    if 400 ≤ c && c < 500 then ((none, some c, some (msg4xx c reason)), 2, 1)
    else ((none, some c, some (httpMsg c reason)), 2, 1)
  | .urlError reason => ((none, none, some ("Network error: " ++ reason)), 2, 1)
  | .otherExc n m => ((none, none, some (n ++ ": " ++ m)), 2, 1)

/-- `ingest.fetch_feed_with_timeout`: value is
`((parsed, http_status, error), requests_issued, sleeps_taken)`. -/
def fetch_feed_with_timeout (resp : Nat → FetchResp) :
    (Option Feed × Option Nat × Option String) × Nat × Nat :=
  match resp 0 with
  | .success f st => ((some f, some st, none), 1, 0)
  | .httpError c reason =>
    if 400 ≤ c && c < 500 then ((none, some c, some (msg4xx c reason)), 1, 0)
    else if 500 ≤ c && c < 600 then fetchSecondAttempt resp
    else ((none, some c, some (httpMsg c reason)), 1, 0)
  | .urlError _ => fetchSecondAttempt resp
  | .otherExc n m => ((none, none, some (n ++ ": " ++ m)), 1, 0)

/-- Python `x or y` on optional strings (an empty string is falsy), as used
for `getattr(e, "id", None) or getattr(e, "guid", None)`. -/
def pyOrOpt (a b : Option String) : Option String :=
  if a.getD "" = "" then b else a

def insert_or_replace_status (rows : List SourceStatusRow) (r : SourceStatusRow) :
    List SourceStatusRow :=
  r :: rows.filter (fun x => !(x.source_id == r.source_id))

/-- `ingest.update_source_status`. -/
def update_source_status (db : DB) (r : SourceStatusRow) : DB :=
  { db with source_status := insert_or_replace_status db.source_status r }

/-- The per-entry loop of `fetch_once`: skip entries without title or url,
compute identity and classifications, upsert, and count seen/added. -/
def processEntries (source_id now : String) :
    List Entry → DB → Nat → Nat → DB × Nat × Nat
  | [], db, seen, added => (db, seen, added)
  | e :: rest, db, seen, added =>
    let seen := seen + 1
    let title := normalize_ws (e.title.getD "")
    let url := e.link.getD ""
    if title = "" || url = "" then processEntries source_id now rest db seen added
    else
      let guid := pyOrOpt e.id e.guid
      let item_id := stable_item_id source_id title url guid
      let sm : String := ⟨(normalize_ws (e.summary.getD "")).data.take 1000⟩
      let item : ItemInput :=
        { item_id := item_id
          source_id := source_id
          published_at := e.published
          fetched_at := now
          title := title
          url := url
          guid := guid
          summary := if sm = "" then none else some sm
          raw_json := none
          topics := tag_topics title
          asset_classes := tag_asset_class title
          geo_tags := tag_geo title
          direction := classify_direction title
          urgency := classify_urgency title
          mode := classify_mode title
          notes := none }
      let exists_ := db.items.any (fun r => r.item_id == item_id)
      let db := upsert_item_and_annotations db item
      processEntries source_id now rest db seen (if exists_ then added else added + 1)

/-- The ingestion environment: the transport oracle (per feed URL and
attempt), an injected persistence failure per source (an exception raised by
a statement inside that source's transaction before its commit), and the
clock reading. -/
structure IngestEnv where
  resp : String → Nat → FetchResp
  pfail : String → Option String
  now : String

/-- One source's turn inside `fetch_once` (the fetch-error path records the
error in `source_status` and moves on; the success path ingests the entries,
turning the parser's `bozo` flag into a non-fatal warning note). -/
def processSource (env : IngestEnv) (db : DB) (s : SourceRow) : DB × Nat :=
  let fetch_utc := env.now
  let r := fetch_feed_with_timeout (env.resp s.rss_url)
  let parsed := r.1.1
  let http_status := r.1.2.1
  let fetch_error := r.1.2.2
  match fetch_error with
  | some _ =>
    (update_source_status db ⟨s.source_id, some fetch_utc, none, fetch_error, http_status, 0, 0⟩, 0)
  | none =>
    let d := parsed.getD ⟨[], false⟩
    let source_error := if d.bozo then some "RSS parse warning (bozo flag set)" else none
    let res := processEntries s.source_id env.now d.entries db 0 0
    (update_source_status res.1
       ⟨s.source_id, some fetch_utc, some fetch_utc, source_error, http_status, res.2.1, res.2.2⟩,
     res.2.2)

/-- The body of `fetch_once`'s `try:` block over the enabled sources.  A
persistence failure raises out of the per-source processing: its transaction
is rolled back (the store reverts to the last per-source commit) and the
remaining sources are not processed; the exception text is the third
component. -/
def runSources (env : IngestEnv) : List SourceRow → DB → Nat → DB × Nat × Option String
  | [], db, added => (db, added, none)
  | s :: rest, db, added =>
    match env.pfail s.source_id with
    | some e => (db, added, some e)
    | none =>
      let r := processSource env db s
      runSources env rest r.1 (added + r.2)

/-- The module-global `_last_fetch_status` dictionary. -/
structure FetchStatus where
  last_run_utc : Option String
  last_error : Option String
  items_added : Nat
deriving DecidableEq, Repr

structure IngestState where
  db : DB
  connClosed : Bool
  last_fetch_status : FetchStatus
deriving DecidableEq, Repr

/-- `ingest.fetch_once`: `try`/`except Exception`/`finally` around the source
loop — any exception from the body is caught and recorded, the connection is
closed on every path, and the outcome is published only through the
module-global status. -/
def fetch_once (env : IngestEnv) (st : IngestState) : IngestState :=
  let enabled := st.db.sources.filter (fun s => s.enabled)
  let r := runSources env enabled st.db 0
  { db := r.1
    connClosed := true
    last_fetch_status := ⟨some env.now, r.2.2, r.2.1⟩ }

/-- `ingest.get_fetch_status`. -/
def get_fetch_status (st : IngestState) : FetchStatus := st.last_fetch_status

/-! ## Concrete instances used by witnesses and counterexamples -/

def c4item0 : ItemRow :=
  ⟨"i", "s", none, "2020-01-01T00:00:00+00:00", "T", "u", none, none, none⟩

def c4db : DB := ⟨[], [c4item0], [], [], [], [], []⟩

def c4input : ItemInput :=
  ⟨"i", "s", none, "2021-06-01T00:00:00+00:00", "T2", "u2", none, none, none,
   [], [], [], "neutral", "low", "unknown", none⟩

def c6dbEmpty : DB := ⟨[], [], [], [], [], [], []⟩

def c6src : SourceRow := ⟨"s", "Pub", "Feed", "Cat", "http://u", none, true⟩

def c6olditem : ItemRow :=
  ⟨"i", "s", some "2000-01-01T00:00:00+00:00", "2000-01-02T00:00:00+00:00", "T", "u",
   none, none, none⟩

def c6dbOld : DB := ⟨[c6src], [c6olditem], [], [], [], [], []⟩

def c8cfg : Json := .obj [("energy", .num 5), ("custom", .arr [.str "x"])]

/-- The `(item_id, tag)` primary-key predicate on `item_tags` rows. -/
def itPred (id T : String) (x : ItemTagRow) : Bool := x.item_id == id && x.tag == T

/-- Number of `item_tags` rows with the given `(item_id, tag)` key. -/
def tagCount (db : DB) (id T : String) : Nat := (db.item_tags.filter (itPred id T)).length

def c7db : DB := ⟨[], [], [⟨"T", "topic", none⟩], [⟨"i", "T", 1, "rules_v1"⟩], [], [], []⟩

def c7input : ItemInput :=
  ⟨"i", "s", none, "2026-01-01T00:00:00+00:00", "t", "u", none, none, none,
   ["T"], [], [], "neutral", "low", "unknown", none⟩

/-- A re-ingestion pass (e.g. under a changed rule table) that does not
re-produce the already-held tag `"T"`. -/
def c7input2 : ItemInput :=
  ⟨"i", "s", none, "2026-01-02T00:00:00+00:00", "t", "u", none, none, none,
   ["U"], [], [], "neutral", "low", "unknown", none⟩

def c2old : ItemRow :=
  ⟨"old", "s", some "2020-01-01T00:00:00+00:00", "2020-01-02T00:00:00+00:00", "T1", "u1",
   none, none, none⟩

def c2new : ItemRow :=
  ⟨"new", "s", none, "2026-02-01T00:00:00+00:00", "T2", "u2", none, none, none⟩

def c2db : DB :=
  ⟨[], [c2old, c2new], [⟨"T", "topic", none⟩],
   [⟨"old", "T", 1, "rules_v1"⟩, ⟨"new", "T", 1, "rules_v1"⟩],
   [⟨"old", "neg", "high", "warn", none, "rules_v0"⟩,
    ⟨"new", "pos", "low", "unknown", none, "rules_v0"⟩],
   [], []⟩

def c5db : DB :=
  ⟨[], [⟨"old", "s", none, "0", "t", "u", none, none, none⟩], [], [], [], [], []⟩

def c10src : SourceRow := ⟨"s1", "Pub", "Feed", "Cat", "url1", none, true⟩

def c10db : DB := ⟨[c10src], [], [], [], [], [], []⟩

def c10st : IngestState := ⟨c10db, false, ⟨none, none, 0⟩⟩

def c10envOk : IngestEnv :=
  ⟨fun _ _ => .httpError 404 "Not Found", fun _ => none, "2026-01-01T00:00:00+00:00"⟩

def c10envBad : IngestEnv :=
  ⟨fun _ _ => .success ⟨[], false⟩ 200,
   fun _ => some "OperationalError: database is locked", "2026-01-01T00:00:00+00:00"⟩

/-! ## Theorems -/

/-- C9: under the default rule tables, the title
`"Oil Prices Surge Amid Middle East Tensions"` is classified with a topic set
containing `energy`, an asset-class set containing `commodities`, direction
`pos`, urgency `high` — and the high-urgency cue list's "surge" pattern is
what matches the title — and mode `unknown`. -/
theorem c9_oil_surge_scenario :
    "energy" ∈ (apply_all_tagging "Oil Prices Surge Amid Middle East Tensions").topics ∧
    "commodities" ∈ (apply_all_tagging "Oil Prices Surge Amid Middle East Tensions").asset_classes ∧
    (apply_all_tagging "Oil Prices Surge Amid Middle East Tensions").direction = "pos" ∧
    (apply_all_tagging "Oil Prices Surge Amid Middle East Tensions").urgency = "high" ∧
    "\\bsurge(s|d)?\\b" ∈ URG_HIGH ∧
    reSearch "\\bsurge(s|d)?\\b" "Oil Prices Surge Amid Middle East Tensions" = true ∧
    (apply_all_tagging "Oil Prices Surge Amid Middle East Tensions").mode = "unknown" := by
  decide

/-- C3: a feed answering HTTP 404 is requested exactly once, with no entries,
the status code, and a terminal error; a feed persistently answering HTTP 503
is requested exactly twice (with one fixed delay between the attempts) and
then surfaces a terminal error. -/
theorem c3_retry_boundary :
    (∀ (resp : Nat → FetchResp) (reason : String),
      resp 0 = .httpError 404 reason →
      fetch_feed_with_timeout resp =
        ((none, some 404, some "HTTP 404: Not Found (feed may have moved)"), 1, 0)) ∧
    (∀ (resp : Nat → FetchResp) (r0 r1 : String),
      resp 0 = .httpError 503 r0 → resp 1 = .httpError 503 r1 →
      fetch_feed_with_timeout resp =
        ((none, some 503, some ("HTTP 503: " ++ r1)), 2, 1)) := by
  constructor
  · intro resp reason h
    simp [fetch_feed_with_timeout, h, msg4xx]
  · intro resp r0 r1 h0 h1
    simp [fetch_feed_with_timeout, h0, fetchSecondAttempt, h1, httpMsg]
    rfl

/-- Witness for C3 at concrete response oracles. -/
theorem c3_retry_boundary_witness :
    ((fun _ : Nat => FetchResp.httpError 404 "Not Found") 0 = .httpError 404 "Not Found" ∧
      fetch_feed_with_timeout (fun _ => FetchResp.httpError 404 "Not Found") =
        ((none, some 404, some "HTTP 404: Not Found (feed may have moved)"), 1, 0)) ∧
    ((fun _ : Nat => FetchResp.httpError 503 "Service Unavailable") 0 =
        .httpError 503 "Service Unavailable" ∧
      fetch_feed_with_timeout (fun _ => FetchResp.httpError 503 "Service Unavailable") =
        ((none, some 503, some ("HTTP 503: " ++ "Service Unavailable")), 2, 1)) :=
  ⟨⟨rfl, c3_retry_boundary.1 (fun _ => .httpError 404 "Not Found") "Not Found" rfl⟩,
   ⟨rfl, c3_retry_boundary.2 (fun _ => .httpError 503 "Service Unavailable")
      "Service Unavailable" "Service Unavailable" rfl rfl⟩⟩

/-- C4, corrected: the `INSERT OR REPLACE` in `upsert_item_and_annotations`
replaces the whole `items` row keyed by `item_id` with the incoming values —
`title`/`url`/`guid`/`summary` but equally `published_at`, `fetched_at`,
`source_id` and `raw_json` — while rows with other keys are untouched. -/
theorem c4_upsert_replaces_whole_row (db : DB) (it : ItemInput) :
    (upsert_item_and_annotations db it).items.filter
        (fun r => r.item_id == it.item_id) = [itemRowOf it] ∧
    (upsert_item_and_annotations db it).items.filter
        (fun r => !(r.item_id == it.item_id)) =
      db.items.filter (fun r => !(r.item_id == it.item_id)) ∧
    (itemRowOf it).fetched_at = it.fetched_at ∧
    (itemRowOf it).published_at = it.published_at ∧
    (itemRowOf it).source_id = it.source_id ∧
    (itemRowOf it).raw_json = it.raw_json := by
  refine ⟨?_, ?_, rfl, rfl, rfl, rfl⟩
  · show (insert_or_replace_item db.items (itemRowOf it)).filter
        (fun r => r.item_id == it.item_id) = [itemRowOf it]
    simp [insert_or_replace_item, itemRowOf, List.filter_filter]
  · show (insert_or_replace_item db.items (itemRowOf it)).filter
        (fun r => !(r.item_id == it.item_id)) =
      db.items.filter (fun r => !(r.item_id == it.item_id))
    simp [insert_or_replace_item, itemRowOf, List.filter_filter]

/-- C4 counterexample: re-upserting item `"i"` with a later fetch time
overwrites `fetched_at`, which the claim says is unchanged by a refresh. -/
theorem c4_fetched_at_overwritten :
    c4db.items.map (fun r => r.fetched_at) = ["2020-01-01T00:00:00+00:00"] ∧
    (upsert_item_and_annotations c4db c4input).items.map (fun r => r.item_id) = ["i"] ∧
    (upsert_item_and_annotations c4db c4input).items.map (fun r => r.fetched_at) =
      ["2021-06-01T00:00:00+00:00"] ∧
    ¬ ("2021-06-01T00:00:00+00:00" = "2020-01-01T00:00:00+00:00") := by
  decide

/-- C6: an empty archive selection (the retention predicate joined with
`sources`) makes `archive_old_items` fail with the explicit
`"No items found older than ... days to archive"` error, producing no
artifact and leaving the store unchanged; and every successful archive
carries a non-empty item list with a matching manifest count. -/
theorem c6_archive_nothing_to_archive :
    (∀ (days : Nat) (cutoff nowIso : String) (db : DB),
      (db.items.filter (fun i =>
        isOldItem cutoff i && db.sources.any (fun s => s.source_id == i.source_id))).isEmpty = true →
      archive_old_items days cutoff nowIso db =
        (.error ("No items found older than " ++ toString days ++ " days to archive"), db)) ∧
    (∀ (days : Nat) (cutoff nowIso : String) (db : DB) (a : ArchiveFile),
      (archive_old_items days cutoff nowIso db).1 = .ok a →
      a.items.length ≠ 0 ∧ a.total_items = a.items.length) := by
  constructor
  · intro days cutoff nowIso db h
    simp [archive_old_items, h]
  · intro days cutoff nowIso db a h
    unfold archive_old_items at h
    by_cases hs : (db.items.filter (fun i =>
        isOldItem cutoff i && db.sources.any (fun s => s.source_id == i.source_id))).isEmpty
    · simp [hs] at h
    · simp [hs] at h
      refine ⟨?_, ?_⟩
      · rw [← h]
        simp [List.isEmpty_iff] at hs
        simp [hs]
      · rw [← h]
        simp

/-- Witness for C6 at a store with no items and at a store with one
archivable item. -/
theorem c6_archive_witness :
    ((c6dbEmpty.items.filter (fun i =>
        isOldItem "2020-01-01T00:00:00" i &&
          c6dbEmpty.sources.any (fun s => s.source_id == i.source_id))).isEmpty = true ∧
      archive_old_items 365 "2020-01-01T00:00:00" "now" c6dbEmpty =
        (.error "No items found older than 365 days to archive", c6dbEmpty)) ∧
    ((archive_old_items 365 "2020-01-01T00:00:00" "now" c6dbOld).1 =
        .ok ⟨"now", 365, 1, [archiveRecordOf c6dbOld c6olditem]⟩ ∧
      (⟨"now", 365, 1, [archiveRecordOf c6dbOld c6olditem]⟩ : ArchiveFile).items.length ≠ 0 ∧
      (⟨"now", 365, 1, [archiveRecordOf c6dbOld c6olditem]⟩ : ArchiveFile).total_items =
        (⟨"now", 365, 1, [archiveRecordOf c6dbOld c6olditem]⟩ : ArchiveFile).items.length) :=
  ⟨⟨by decide, by
      have := c6_archive_nothing_to_archive.1 365 "2020-01-01T00:00:00" "now" c6dbEmpty (by decide)
      simpa using this⟩,
   by
    have h : (archive_old_items 365 "2020-01-01T00:00:00" "now" c6dbOld).1 =
        .ok ⟨"now", 365, 1, [archiveRecordOf c6dbOld c6olditem]⟩ := by decide
    exact ⟨h, c6_archive_nothing_to_archive.2 365 "2020-01-01T00:00:00" "now" c6dbOld _ h⟩⟩

/-- C8 counterexample: in a config with one invalid entry (`"energy"` mapped
to a number) and one valid entry, the loader returns only the valid entry —
the built-in default patterns for `"energy"` are not substituted, although a
default for that label exists. -/
theorem c8_invalid_entry_not_defaulted :
    validEntry ("energy", Json.num 5) = none ∧
    "energy" ∈ DEFAULT_TOPIC_RULES.map (fun p => p.1) ∧
    load_topic_rules (some c8cfg) = [("custom", ["x"])] ∧
    ¬ ("energy" ∈ (load_topic_rules (some c8cfg)).map (fun p => p.1)) := by
  decide

/-- C8, amended: an invalid table entry is rejected and dropped; if at least
one valid entry exists the loaded table consists of exactly the valid
entries; a missing/unparseable config, a non-mapping config, an empty
mapping, or a mapping with no valid entries falls back to the full built-in
default table (and the three loaders instantiate the shared logic with their
domain defaults). -/
theorem c8_loader_validation :
    (∀ defaults, load_rules_table none defaults = defaults) ∧
    (∀ (j : Json) (defaults : List (String × List String)),
      (∀ entries, j ≠ .obj entries) → load_rules_table (some j) defaults = defaults) ∧
    (∀ defaults, load_rules_table (some (.obj [])) defaults = defaults) ∧
    (∀ (entries : List (String × Json)) (defaults : List (String × List String)),
      (∀ e ∈ entries, validEntry e = none) →
      load_rules_table (some (.obj entries)) defaults = defaults) ∧
    (∀ (entries : List (String × Json)) (defaults : List (String × List String)),
      (∃ e ∈ entries, (validEntry e).isSome) →
      load_rules_table (some (.obj entries)) defaults = entries.filterMap validEntry) ∧
    load_topic_rules none = DEFAULT_TOPIC_RULES ∧
    load_asset_class_rules none = DEFAULT_ASSET_CLASS_RULES ∧
    load_geo_rules none = DEFAULT_GEO_RULES := by
  refine ⟨fun _ => rfl, ?_, fun _ => rfl, ?_, ?_, rfl, rfl, rfl⟩
  · intro j defaults h
    cases j with
    | obj entries => exact absurd rfl (h entries)
    | str s => rfl
    | num n => rfl
    | jbool b => rfl
    | null => rfl
    | arr l => rfl
  · intro entries defaults h
    have hfm : entries.filterMap validEntry = [] := List.filterMap_eq_nil_iff.mpr h
    unfold load_rules_table
    by_cases he : entries.isEmpty
    · simp [he]
    · simp [he, hfm]
  · intro entries defaults h
    obtain ⟨e, he, hv⟩ := h
    obtain ⟨v, hv⟩ := Option.isSome_iff_exists.mp hv
    have hne : entries ≠ [] := List.ne_nil_of_mem he
    have hmem : v ∈ entries.filterMap validEntry :=
      List.mem_filterMap.mpr ⟨e, he, hv⟩
    have hfm : entries.filterMap validEntry ≠ [] := List.ne_nil_of_mem hmem
    unfold load_rules_table
    simp [List.isEmpty_iff, hne, hfm]

/-- Witness for C8 at concrete configs and a two-entry default table. -/
theorem c8_loader_validation_witness :
    ((∀ entries, Json.str "x" ≠ .obj entries) ∧
      load_rules_table (some (.str "x")) [("d", ["p"])] = [("d", ["p"])]) ∧
    ((∀ e ∈ [("energy", Json.num 5)], validEntry e = none) ∧
      load_rules_table (some (.obj [("energy", .num 5)])) [("d", ["p"])] = [("d", ["p"])]) ∧
    ((∃ e ∈ [("custom", Json.arr [.str "x"])], (validEntry e).isSome) ∧
      load_rules_table (some (.obj [("custom", .arr [.str "x"])])) [("d", ["p"])] =
        [("custom", Json.arr [.str "x"])].filterMap validEntry) :=
  ⟨⟨fun entries h => Json.noConfusion h,
    c8_loader_validation.2.1 (.str "x") [("d", ["p"])] (fun entries h => Json.noConfusion h)⟩,
   ⟨by intro e he; rw [List.mem_singleton] at he; subst he; rfl,
    c8_loader_validation.2.2.2.1 [("energy", .num 5)] [("d", ["p"])]
      (by intro e he; rw [List.mem_singleton] at he; subst he; rfl)⟩,
   ⟨⟨("custom", .arr [.str "x"]), List.mem_singleton.mpr rfl, rfl⟩,
    c8_loader_validation.2.2.2.2.1 [("custom", .arr [.str "x"])] [("d", ["p"])]
      ⟨("custom", .arr [.str "x"]), List.mem_singleton.mpr rfl, rfl⟩⟩⟩

/-- A list of the shape `l₁ ++ c :: r₁` with `c` absent from `l₁` determines
`l₁` and `r₁` uniquely. -/
theorem sep_split (c : Char) :
    ∀ (l₁ l₂ r₁ r₂ : List Char), c ∉ l₁ → c ∉ l₂ →
      l₁ ++ c :: r₁ = l₂ ++ c :: r₂ → l₁ = l₂ ∧ r₁ = r₂ := by
  intro l₁
  induction l₁ with
  | nil =>
    intro l₂ r₁ r₂ _ h2 h
    cases l₂ with
    | nil => simpa using h
    | cons y ys =>
      simp only [List.nil_append, List.cons_append, List.cons.injEq] at h
      exact absurd (h.1 ▸ List.mem_cons_self y ys) h2
  | cons x xs ih =>
    intro l₂ r₁ r₂ h1 h2 h
    cases l₂ with
    | nil =>
      simp only [List.cons_append, List.nil_append, List.cons.injEq] at h
      exact absurd (h.1 ▸ List.mem_cons_self x xs) h1
    | cons y ys =>
      simp only [List.cons_append, List.cons.injEq] at h
      obtain ⟨hxy, hrest⟩ := h
      have h1' : c ∉ xs := fun hm => h1 (List.mem_cons_of_mem _ hm)
      have h2' : c ∉ ys := fun hm => h2 (List.mem_cons_of_mem _ hm)
      obtain ⟨hl, hr⟩ := ih ys r₁ r₂ h1' h2' hrest
      exact ⟨by rw [hxy, hl], hr⟩

/-- The characters of the guid-less hash pre-image. -/
theorem stable_base_none_data (s t u : String) :
    (stable_base s t u none).data =
      s.data ++ '|' :: ((normalize_title_for_hash t s).data ++ '|' :: u.data) := by
  show (s ++ "|" ++ normalize_title_for_hash t s ++ "|" ++ u).data = _
  simp [String.data_append]

/-- C1, amended: `stable_item_id` is deterministic; with a non-empty guid the
identifier is the hash of the guid alone, so it is invariant under any change
of `sourceId`, `title` or `url`; titles agreeing after normalization collide
at the same source and url; and with no guid the hash pre-image
`sourceId|normalizedTitle|url` determines and is determined by
`(sourceId, normalizedTitle, url)` whenever source id and normalized titles
are free of the `|` separator. -/
theorem c1_stable_item_id_amended :
    (∀ (s t u : String) (g : Option String),
      stable_item_id s t u g = stable_item_id s t u g) ∧
    (∀ (s₁ t₁ u₁ s₂ t₂ u₂ g : String), g ≠ "" →
      stable_item_id s₁ t₁ u₁ (some g) = stable_item_id s₂ t₂ u₂ (some g)) ∧
    (∀ (s t₁ t₂ u : String),
      normalize_title_for_hash t₁ s = normalize_title_for_hash t₂ s →
      stable_item_id s t₁ u none = stable_item_id s t₂ u none) ∧
    (∀ (s₁ t₁ u₁ s₂ t₂ u₂ : String),
      '|' ∉ s₁.data → '|' ∉ s₂.data →
      '|' ∉ (normalize_title_for_hash t₁ s₁).data →
      '|' ∉ (normalize_title_for_hash t₂ s₂).data →
      (stable_base s₁ t₁ u₁ none = stable_base s₂ t₂ u₂ none ↔
        (s₁ = s₂ ∧ normalize_title_for_hash t₁ s₁ = normalize_title_for_hash t₂ s₂ ∧
          u₁ = u₂))) := by
  refine ⟨fun _ _ _ _ => rfl, ?_, ?_, ?_⟩
  · intro s₁ t₁ u₁ s₂ t₂ u₂ g hg
    simp [stable_item_id, stable_base, hg]
  · intro s t₁ t₂ u h
    simp [stable_item_id, stable_base, h]
  · intro s₁ t₁ u₁ s₂ t₂ u₂ h1 h2 h3 h4
    constructor
    · intro heq
      have hd := congrArg String.data heq
      rw [stable_base_none_data, stable_base_none_data] at hd
      obtain ⟨hs, hrest⟩ := sep_split '|' _ _ _ _ h1 h2 hd
      obtain ⟨hnt, hu⟩ := sep_split '|' _ _ _ _ h3 h4 hrest
      exact ⟨String.ext hs, String.ext hnt, String.ext hu⟩
    · rintro ⟨hs, hnt, hu⟩
      subst hs; subst hu
      simp [stable_base, hnt]

/-- Witness for C1 at concrete strings (guid dominance, normalization
equivalence, and pre-image injectivity for `|`-free fields). -/
theorem c1_stable_item_id_witness :
    (("g" : String) ≠ "" ∧
      stable_item_id "a" "t" "u" (some "g") = stable_item_id "b" "t2" "u2" (some "g")) ∧
    (normalize_title_for_hash "Markets  Slip - Reuters" "s" =
        normalize_title_for_hash "markets slip" "s" ∧
      stable_item_id "s" "Markets  Slip - Reuters" "u" none =
        stable_item_id "s" "markets slip" "u" none) ∧
    ('|' ∉ ("a" : String).data ∧ '|' ∉ ("b" : String).data ∧
      '|' ∉ (normalize_title_for_hash "tx" "a").data ∧
      '|' ∉ (normalize_title_for_hash "ty" "b").data ∧
      (stable_base "a" "tx" "u" none = stable_base "b" "ty" "u" none ↔
        (("a" : String) = "b" ∧
          normalize_title_for_hash "tx" "a" = normalize_title_for_hash "ty" "b" ∧
          ("u" : String) = "u"))) :=
  ⟨⟨by decide, c1_stable_item_id_amended.2.1 "a" "t" "u" "b" "t2" "u2" "g" (by decide)⟩,
   ⟨by decide, c1_stable_item_id_amended.2.2.1 "s" "Markets  Slip - Reuters" "markets slip" "u"
      (by decide)⟩,
   ⟨by decide, by decide, by decide, by decide,
    c1_stable_item_id_amended.2.2.2 "a" "tx" "u" "b" "ty" "u"
      (by decide) (by decide) (by decide) (by decide)⟩⟩

/-- C1 counterexample: with a non-empty guid, changing only `sourceId` leaves
the identifier unchanged (the source hashes the guid alone instead of
combining `sourceId|guid`), refuting the claim's collision-resistance in the
`sourceId` input. -/
theorem c1_source_id_ignored_with_guid :
    stable_item_id "reuters" "T" "u" (some "g") =
      stable_item_id "bloomberg" "T" "u" (some "g") ∧
    ("reuters" : String) ≠ "bloomberg" := by
  constructor
  · show sha256hex (stable_base "reuters" "T" "u" (some "g")) =
      sha256hex (stable_base "bloomberg" "T" "u" (some "g"))
    have h1 : stable_base "reuters" "T" "u" (some "g") = "g" := by decide
    have h2 : stable_base "bloomberg" "T" "u" (some "g") = "g" := by decide
    rw [h1, h2]
  · decide

/-- Membership in `item_tags` is preserved by `INSERT OR IGNORE`. -/
theorem insert_ignore_item_tag_mem (rows : List ItemTagRow) (r x : ItemTagRow)
    (hx : x ∈ rows) : x ∈ insert_ignore_item_tag rows r := by
  unfold insert_ignore_item_tag
  split
  · exact hx
  · exact List.mem_cons_of_mem _ hx

/-- `INSERT OR IGNORE` does not change the number of rows with a given
`(item_id, tag)` key that is already present. -/
theorem insert_ignore_item_tag_count (rows : List ItemTagRow) (r : ItemTagRow) (id T : String)
    (h : 1 ≤ (rows.filter (itPred id T)).length) :
    ((insert_ignore_item_tag rows r).filter (itPred id T)).length =
      (rows.filter (itPred id T)).length := by
  unfold insert_ignore_item_tag
  split
  · rfl
  · rename_i hany
    rw [List.filter_cons]
    by_cases hr : itPred id T r = true
    · exfalso
      have hne : rows.filter (itPred id T) ≠ [] := by
        intro hnil
        rw [hnil] at h
        simp at h
      obtain ⟨x, hx⟩ := List.exists_mem_of_ne_nil _ hne
      have hxm := List.mem_filter.mp hx
      apply hany
      rw [List.any_eq_true]
      refine ⟨x, hxm.1, ?_⟩
      have hxp := hxm.2
      simp only [itPred, Bool.and_eq_true, beq_iff_eq] at hxp hr ⊢
      exact ⟨hxp.1.trans hr.1.symm, hxp.2.trans hr.2.symm⟩
    · simp [hr]

/-- Membership in `item_tags` is preserved by the per-tag loop. -/
theorem addTagAnn_fold_mem (id ty : String) (l : List String)
    (st : List TagRow × List ItemTagRow) (x : ItemTagRow) (hx : x ∈ st.2) :
    x ∈ (l.foldl (addTagAnn id ty) st).2 := by
  induction l generalizing st with
  | nil => exact hx
  | cons a as ih => exact ih _ (insert_ignore_item_tag_mem _ _ _ hx)

/-- The per-tag loop preserves the row count of an already-present key. -/
theorem addTagAnn_fold_count (id0 ty : String) (l : List String)
    (st : List TagRow × List ItemTagRow) (id T : String)
    (h : 1 ≤ (st.2.filter (itPred id T)).length) :
    ((l.foldl (addTagAnn id0 ty) st).2.filter (itPred id T)).length =
      (st.2.filter (itPred id T)).length := by
  induction l generalizing st with
  | nil => rfl
  | cons a as ih =>
    have hstep := insert_ignore_item_tag_count st.2 ⟨id0, a, 1, "rules_v1"⟩ id T h
    have h2 : 1 ≤ (((addTagAnn id0 ty st a).2).filter (itPred id T)).length := by
      show 1 ≤ ((insert_ignore_item_tag st.2 ⟨id0, a, 1, "rules_v1"⟩).filter (itPred id T)).length
      rw [hstep]
      exact h
    rw [List.foldl_cons, ih _ h2]
    exact hstep

/-- C7: no run of `upsert_item_and_annotations` ever removes a
previously-assigned `item_tags` row — unconditionally, whatever the current
rule pass emits (it contains no DELETE on `item_tags`); and re-tagging an
item that already holds tag `T` (exactly one `(item_id, T)` row, as the
primary key guarantees) with a rule pass that emits `T` again leaves exactly
one such row. -/
theorem c7_tag_monotonicity :
    (∀ (db : DB) (it : ItemInput), ∀ r ∈ db.item_tags,
      r ∈ (upsert_item_and_annotations db it).item_tags) ∧
    (∀ (db : DB) (it : ItemInput) (T : String),
      tagCount db it.item_id T = 1 →
      T ∈ it.topics ++ it.asset_classes ++ it.geo_tags →
      tagCount (upsert_item_and_annotations db it) it.item_id T = 1) := by
  have hub : ∀ (db : DB) (it : ItemInput),
      (upsert_item_and_annotations db it).item_tags =
      (it.geo_tags.foldl (addTagAnn it.item_id "geo")
        (it.asset_classes.foldl (addTagAnn it.item_id "asset_class")
          (it.topics.foldl (addTagAnn it.item_id "topic") (db.tags, db.item_tags)))).2 :=
    fun _ _ => rfl
  constructor
  · intro db it r hr
    rw [hub]
    exact addTagAnn_fold_mem _ _ _ _ _
      (addTagAnn_fold_mem _ _ _ _ _ (addTagAnn_fold_mem _ _ _ _ _ hr))
  · intro db it T hheld _hemit
    unfold tagCount at hheld ⊢
    rw [hub]
    have h1 : 1 ≤ (db.item_tags.filter (itPred it.item_id T)).length := by omega
    have e1 := addTagAnn_fold_count it.item_id "topic" it.topics (db.tags, db.item_tags)
      it.item_id T h1
    have h2 : 1 ≤ ((it.topics.foldl (addTagAnn it.item_id "topic")
        (db.tags, db.item_tags)).2.filter (itPred it.item_id T)).length := by
      rw [e1]; exact h1
    have e2 := addTagAnn_fold_count it.item_id "asset_class" it.asset_classes _
      it.item_id T h2
    have h3 : 1 ≤ ((it.asset_classes.foldl (addTagAnn it.item_id "asset_class")
        (it.topics.foldl (addTagAnn it.item_id "topic")
          (db.tags, db.item_tags))).2.filter (itPred it.item_id T)).length := by
      rw [e2, e1]; exact h1
    have e3 := addTagAnn_fold_count it.item_id "geo" it.geo_tags _ it.item_id T h3
    rw [e3, e2, e1]
    exact hheld

/-- Witness for C7: the held `("i", "T")` row survives a pass that does not
re-emit `"T"` (emitting only `"U"`), and a pass that re-emits `"T"` leaves
exactly one such row. -/
theorem c7_tag_monotonicity_witness :
    ((⟨"i", "T", 1, "rules_v1"⟩ : ItemTagRow) ∈ c7db.item_tags ∧
      (⟨"i", "T", 1, "rules_v1"⟩ : ItemTagRow) ∈
        (upsert_item_and_annotations c7db c7input2).item_tags) ∧
    (tagCount c7db c7input.item_id "T" = 1 ∧
      "T" ∈ c7input.topics ++ c7input.asset_classes ++ c7input.geo_tags ∧
      tagCount (upsert_item_and_annotations c7db c7input) c7input.item_id "T" = 1) :=
  ⟨⟨by decide, c7_tag_monotonicity.1 c7db c7input2 ⟨"i", "T", 1, "rules_v1"⟩ (by decide)⟩,
   ⟨by decide, by decide, c7_tag_monotonicity.2 c7db c7input "T" (by decide) (by decide)⟩⟩

/-- The id list selected by `run_cleanup` contains an id exactly when some
item row is old and carries that id. -/
theorem old_ids_contains_eq (items : List ItemRow) (cutoff tid : String) :
    ((items.filter (isOldItem cutoff)).map (fun i => i.item_id)).contains tid =
      items.any (fun i => isOldItem cutoff i && i.item_id == tid) := by
  rw [Bool.eq_iff_iff]
  constructor
  · intro hc
    obtain ⟨x, hx, hbeq⟩ := List.contains_iff_exists_mem_beq.mp hc
    obtain ⟨i, hif, hxi⟩ := List.mem_map.mp hx
    obtain ⟨hi, hio⟩ := List.mem_filter.mp hif
    rw [List.any_eq_true]
    refine ⟨i, hi, ?_⟩
    rw [Bool.and_eq_true, beq_iff_eq]
    exact ⟨hio, by rw [hxi]; exact (beq_iff_eq.mp hbeq).symm⟩
  · intro ha
    obtain ⟨i, hi, hp⟩ := List.any_eq_true.mp ha
    rw [Bool.and_eq_true, beq_iff_eq] at hp
    rw [List.contains_iff_exists_mem_beq]
    refine ⟨i.item_id, List.mem_map.mpr ⟨i, List.mem_filter.mpr ⟨hi, hp.1⟩, rfl⟩, ?_⟩
    rw [beq_iff_eq]
    exact hp.2.symm

/-- With unique item ids (the `items` primary key), membership of a row's id
in the selected id list is exactly the row's own oldness. -/
theorem old_ids_contains_of_mem (items : List ItemRow) (cutoff : String)
    (hnd : (items.map (fun i => i.item_id)).Nodup) (x : ItemRow) (hx : x ∈ items) :
    ((items.filter (isOldItem cutoff)).map (fun i => i.item_id)).contains x.item_id =
      isOldItem cutoff x := by
  rw [old_ids_contains_eq, Bool.eq_iff_iff, List.any_eq_true]
  constructor
  · rintro ⟨i, hi, hp⟩
    rw [Bool.and_eq_true, beq_iff_eq] at hp
    have hix : i = x := List.inj_on_of_nodup_map hnd hi hx hp.2
    rw [← hix]
    exact hp.1
  · intro ho
    refine ⟨x, hx, ?_⟩
    rw [Bool.and_eq_true, beq_iff_eq]
    exact ⟨ho, rfl⟩

/-- `run_cleanup` with nothing selected is a no-op with zero counts. -/
theorem run_cleanup_of_no_old (cutoff nowIso : String) (db : DB)
    (h : db.items.filter (isOldItem cutoff) = []) :
    run_cleanup cutoff nowIso db = (db, ⟨0, 0, 0⟩) := by
  unfold run_cleanup
  rw [h]
  rfl

/-- C2: over a store whose item ids are unique (the primary key), one
`run_cleanup` deletes exactly the items strictly older than the cutoff along
with their dependent `item_tags` and `signals` rows, returns the per-table
counts of the rows deleted, and an immediate second invocation (same cutoff)
deletes nothing, returning zero counts and leaving the store as it was. -/
theorem c2_run_cleanup_retention (cutoff nowIso nowIso2 : String) (db : DB)
    (hnd : (db.items.map (fun i => i.item_id)).Nodup) :
    ((run_cleanup cutoff nowIso db).1.items =
      db.items.filter (fun i => !(isOldItem cutoff i))) ∧
    ((run_cleanup cutoff nowIso db).1.item_tags =
      db.item_tags.filter (fun t =>
        !(db.items.any (fun i => isOldItem cutoff i && i.item_id == t.item_id)))) ∧
    ((run_cleanup cutoff nowIso db).1.signals =
      db.signals.filter (fun t =>
        !(db.items.any (fun i => isOldItem cutoff i && i.item_id == t.item_id)))) ∧
    ((run_cleanup cutoff nowIso db).2.items_deleted =
      (db.items.filter (fun i => isOldItem cutoff i)).length) ∧
    ((run_cleanup cutoff nowIso db).2.tags_deleted =
      (db.item_tags.filter (fun t =>
        db.items.any (fun i => isOldItem cutoff i && i.item_id == t.item_id))).length) ∧
    ((run_cleanup cutoff nowIso db).2.signals_deleted =
      (db.signals.filter (fun t =>
        db.items.any (fun i => isOldItem cutoff i && i.item_id == t.item_id))).length) ∧
    run_cleanup cutoff nowIso2 (run_cleanup cutoff nowIso db).1 =
      ((run_cleanup cutoff nowIso db).1, ⟨0, 0, 0⟩) := by
  by_cases he : ((db.items.filter (isOldItem cutoff)).map (fun i => i.item_id)).isEmpty
  · -- empty selection: the call is a no-op with zero counts
    have hfe : db.items.filter (isOldItem cutoff) = [] :=
      List.map_eq_nil_iff.mp (List.isEmpty_iff.mp he)
    have hall : ∀ x ∈ db.items, isOldItem cutoff x = false := by
      intro x hx
      by_contra hbx
      have hmem : x ∈ db.items.filter (isOldItem cutoff) :=
        List.mem_filter.mpr ⟨hx, by simpa using hbx⟩
      rw [hfe] at hmem
      exact absurd hmem (List.not_mem_nil x)
    have hanyf : ∀ tid : String,
        db.items.any (fun i => isOldItem cutoff i && i.item_id == tid) = false := by
      intro tid
      rw [← Bool.not_eq_true, List.any_eq_true]
      rintro ⟨i, hi, hp⟩
      rw [Bool.and_eq_true] at hp
      rw [hall i hi] at hp
      exact Bool.false_ne_true hp.1
    have hrun : run_cleanup cutoff nowIso db = (db, ⟨0, 0, 0⟩) :=
      run_cleanup_of_no_old cutoff nowIso db hfe
    have hrun2 : run_cleanup cutoff nowIso2 db = (db, ⟨0, 0, 0⟩) :=
      run_cleanup_of_no_old cutoff nowIso2 db hfe
    rw [hrun]
    refine ⟨?_, ?_, ?_, ?_, ?_, ?_, ?_⟩
    · exact (List.filter_eq_self.mpr (fun x hx => by rw [hall x hx]; rfl)).symm
    · exact (List.filter_eq_self.mpr (fun t _ => by rw [hanyf t.item_id]; rfl)).symm
    · exact (List.filter_eq_self.mpr (fun t _ => by rw [hanyf t.item_id]; rfl)).symm
    · rw [hfe]; rfl
    · rw [List.filter_eq_nil_iff.mpr (fun t _ => by rw [hanyf t.item_id]; exact Bool.false_ne_true)]
      rfl
    · rw [List.filter_eq_nil_iff.mpr (fun t _ => by rw [hanyf t.item_id]; exact Bool.false_ne_true)]
      rfl
    · exact hrun2
  · -- non-empty selection: rows are deleted and counted
    have he' : ((db.items.filter (isOldItem cutoff)).map (fun i => i.item_id)).isEmpty = false :=
      Bool.of_not_eq_true he
    have hrun : run_cleanup cutoff nowIso db =
        (set_maintenance_state
          { db with
            item_tags := db.item_tags.filter (fun r =>
              !(((db.items.filter (isOldItem cutoff)).map (fun i => i.item_id)).contains r.item_id)),
            signals := db.signals.filter (fun r =>
              !(((db.items.filter (isOldItem cutoff)).map (fun i => i.item_id)).contains r.item_id)),
            items := db.items.filter (fun r =>
              !(((db.items.filter (isOldItem cutoff)).map (fun i => i.item_id)).contains r.item_id)) }
          "last_cleanup" nowIso nowIso,
         ⟨(db.items.filter (fun r =>
             ((db.items.filter (isOldItem cutoff)).map (fun i => i.item_id)).contains r.item_id)).length,
          (db.item_tags.filter (fun r =>
             ((db.items.filter (isOldItem cutoff)).map (fun i => i.item_id)).contains r.item_id)).length,
          (db.signals.filter (fun r =>
             ((db.items.filter (isOldItem cutoff)).map (fun i => i.item_id)).contains r.item_id)).length⟩) := by
      unfold run_cleanup
      simp [he']
    have hitems : db.items.filter (fun r =>
        !(((db.items.filter (isOldItem cutoff)).map (fun i => i.item_id)).contains r.item_id)) =
        db.items.filter (fun i => !(isOldItem cutoff i)) :=
      List.filter_congr (fun x hx => by rw [old_ids_contains_of_mem db.items cutoff hnd x hx])
    rw [hrun]
    refine ⟨?_, ?_, ?_, ?_, ?_, ?_, ?_⟩
    · exact hitems
    · exact List.filter_congr (fun t _ => by rw [old_ids_contains_eq])
    · exact List.filter_congr (fun t _ => by rw [old_ids_contains_eq])
    · exact congrArg List.length
        (List.filter_congr (fun x hx => old_ids_contains_of_mem db.items cutoff hnd x hx))
    · exact congrArg List.length (List.filter_congr (fun t _ => old_ids_contains_eq _ _ _))
    · exact congrArg List.length (List.filter_congr (fun t _ => old_ids_contains_eq _ _ _))
    · -- second invocation: no remaining item is old
      have hsel : (db.items.filter (fun r =>
          !(((db.items.filter (isOldItem cutoff)).map (fun i => i.item_id)).contains r.item_id))).filter
            (isOldItem cutoff) = [] := by
        rw [List.filter_eq_nil_iff]
        intro x hx hold
        obtain ⟨hxi, hxc⟩ := List.mem_filter.mp hx
        rw [old_ids_contains_of_mem db.items cutoff hnd x hxi, hold] at hxc
        simp at hxc
      exact run_cleanup_of_no_old cutoff nowIso2 _ hsel

/-- Witness for C2 at a two-item store (one old, one recent) with dependent
tag and signal rows. -/
theorem c2_run_cleanup_witness :
    (c2db.items.map (fun i => i.item_id)).Nodup ∧
    (((run_cleanup "2025-01-01T00:00:00" "2026-03-01T00:00:00+00:00" c2db).1.items =
      c2db.items.filter (fun i => !(isOldItem "2025-01-01T00:00:00" i))) ∧
    ((run_cleanup "2025-01-01T00:00:00" "2026-03-01T00:00:00+00:00" c2db).1.item_tags =
      c2db.item_tags.filter (fun t =>
        !(c2db.items.any (fun i => isOldItem "2025-01-01T00:00:00" i && i.item_id == t.item_id)))) ∧
    ((run_cleanup "2025-01-01T00:00:00" "2026-03-01T00:00:00+00:00" c2db).1.signals =
      c2db.signals.filter (fun t =>
        !(c2db.items.any (fun i => isOldItem "2025-01-01T00:00:00" i && i.item_id == t.item_id)))) ∧
    ((run_cleanup "2025-01-01T00:00:00" "2026-03-01T00:00:00+00:00" c2db).2.items_deleted =
      (c2db.items.filter (fun i => isOldItem "2025-01-01T00:00:00" i)).length) ∧
    ((run_cleanup "2025-01-01T00:00:00" "2026-03-01T00:00:00+00:00" c2db).2.tags_deleted =
      (c2db.item_tags.filter (fun t =>
        c2db.items.any (fun i => isOldItem "2025-01-01T00:00:00" i && i.item_id == t.item_id))).length) ∧
    ((run_cleanup "2025-01-01T00:00:00" "2026-03-01T00:00:00+00:00" c2db).2.signals_deleted =
      (c2db.signals.filter (fun t =>
        c2db.items.any (fun i => isOldItem "2025-01-01T00:00:00" i && i.item_id == t.item_id))).length) ∧
    run_cleanup "2025-01-01T00:00:00" "2026-03-02T00:00:00+00:00"
        (run_cleanup "2025-01-01T00:00:00" "2026-03-01T00:00:00+00:00" c2db).1 =
      ((run_cleanup "2025-01-01T00:00:00" "2026-03-01T00:00:00+00:00" c2db).1, ⟨0, 0, 0⟩)) :=
  ⟨by decide,
   c2_run_cleanup_retention "2025-01-01T00:00:00" "2026-03-01T00:00:00+00:00"
     "2026-03-02T00:00:00+00:00" c2db (by decide)⟩

/-- C5 (code bug): `set_maintenance_state` records the last-cleanup timestamp
in timezone-aware iso format, and on the next `maybe_run_daily_cleanup` the
subtraction of that aware value from the naive `datetime.now()` raises a
`TypeError` that the `except ValueError` handler does not catch — instead of
the claimed no-op/cleanup decision.  Moreover a cleanup that deletes zero
rows returns without recording any timestamp. -/
theorem c5_maybe_cleanup_crashes_on_stored_timestamp :
    get_maintenance_state
        (set_maintenance_state c5db "last_cleanup" (dtIso (.aware 1000)) (dtIso (.aware 1000)))
        "last_cleanup" = some (dtIso (.aware 1000)) ∧
    maybe_run_daily_cleanup 90000 90500 "1"
        (set_maintenance_state c5db "last_cleanup" (dtIso (.aware 1000)) (dtIso (.aware 1000))) =
      .error "TypeError: can't subtract offset-naive and offset-aware datetimes" ∧
    run_cleanup "0" (dtIso (.aware 9)) c5db = (c5db, ⟨0, 0, 0⟩) ∧
    get_maintenance_state (run_cleanup "0" (dtIso (.aware 9)) c5db).1 "last_cleanup" = none := by
  decide

/-- A run in which no source's transaction fails reports no run-level error,
whatever the fetches do. -/
theorem runSources_no_pfail_err (env : IngestEnv) (h : ∀ sid, env.pfail sid = none) :
    ∀ (l : List SourceRow) (db : DB) (acc : Nat), (runSources env l db acc).2.2 = none := by
  intro l
  induction l with
  | nil => intro db acc; rfl
  | cons s rest ih =>
    intro db acc
    unfold runSources
    rw [h s.source_id]
    exact ih _ _

/-- C10: `fetch_once` always returns normally: the connection is closed on
every path, the run summary published through `get_fetch_status` carries
exactly the body's outcome (timestamp, caught error if any, items added), the
store holds exactly the per-source commits, fetch failures alone never
surface as a run error, and a persistence failure at a source rolls its
transaction back and appears only as `last_error`. -/
theorem c10_fetch_once_surfaces_errors (env : IngestEnv) (st : IngestState) :
    (fetch_once env st).connClosed = true ∧
    get_fetch_status (fetch_once env st) =
      ⟨some env.now,
       (runSources env (st.db.sources.filter (fun s => s.enabled)) st.db 0).2.2,
       (runSources env (st.db.sources.filter (fun s => s.enabled)) st.db 0).2.1⟩ ∧
    (fetch_once env st).db =
      (runSources env (st.db.sources.filter (fun s => s.enabled)) st.db 0).1 ∧
    ((∀ sid, env.pfail sid = none) →
      (get_fetch_status (fetch_once env st)).last_error = none) ∧
    (∀ (s : SourceRow) (rest : List SourceRow) (e : String),
      st.db.sources.filter (fun s => s.enabled) = s :: rest →
      env.pfail s.source_id = some e →
      (fetch_once env st).db = st.db ∧
      (get_fetch_status (fetch_once env st)).last_error = some e) := by
  refine ⟨rfl, rfl, rfl, ?_, ?_⟩
  · intro h
    exact runSources_no_pfail_err env h _ _ _
  · intro s rest e hfil hpf
    have hrs : runSources env (st.db.sources.filter (fun s => s.enabled)) st.db 0 =
        (st.db, 0, some e) := by
      rw [hfil]
      unfold runSources
      rw [hpf]
    constructor
    · show (runSources env (st.db.sources.filter (fun s => s.enabled)) st.db 0).1 = st.db
      rw [hrs]
    · show (runSources env (st.db.sources.filter (fun s => s.enabled)) st.db 0).2.2 = some e
      rw [hrs]

/-- Witness for C10: a run whose only source 404s surfaces no run error; a
run whose only source hits a locked store surfaces it as `last_error` only,
leaving the store untouched. -/
theorem c10_fetch_once_witness :
    ((∀ sid, c10envOk.pfail sid = none) ∧
      (get_fetch_status (fetch_once c10envOk c10st)).last_error = none) ∧
    (c10st.db.sources.filter (fun s => s.enabled) = [c10src] ∧
      c10envBad.pfail c10src.source_id = some "OperationalError: database is locked" ∧
      ((fetch_once c10envBad c10st).db = c10st.db ∧
        (get_fetch_status (fetch_once c10envBad c10st)).last_error =
          some "OperationalError: database is locked")) :=
  ⟨⟨fun _ => rfl,
    (c10_fetch_once_surfaces_errors c10envOk c10st).2.2.2.1 (fun _ => rfl)⟩,
   ⟨by decide, rfl,
    (c10_fetch_once_surfaces_errors c10envBad c10st).2.2.2.2 c10src []
      "OperationalError: database is locked" (by decide) rfl⟩⟩

end FINNews
